import Mathlib

/-!
Verification of the emotion-analysis data pipeline in `emotion_analyzer.py`
(class `EmotionAnalyzerApp`).  The pipeline is shallowly embedded:

* a polars `DataFrame` read from the spreadsheet is a `Frame`: a list of
  named columns, each a list of cells; a cell is either text or a number
  (numbers are modelled exactly, as rationals, in the tidy stage);
* `preprocess_data` (lines 287-325) becomes `preprocess_data : Frame →
  Except FormatError TidyTable`; every Python exception escaping the method
  (bad `int(...)` parse, polars rename/height/cast errors) is an explicit
  `FormatError` value;
* `power_weights` (lines 327-334) and `apply_power_weighting` (lines
  336-346) are embedded over `ℝ` (floats are modelled as reals);
* the widget state `df_original` / `df_weighted` / `remove_last_second` and
  the `process_data` handler (lines 348-374) become `AppState` and a state
  transformer; the `a_param.get()` / `b_param.get()` reads, which raise
  `tk.TclError` when the entry text is not numeric, are modelled by passing
  the parameters as an `Except`;
* the data part of `create_bar_chart` (lines 376-401) becomes
  `bar_chart_df` (the drop-last-second filter), `positivo_series` and
  `neutral_series`.
-/

/-- A spreadsheet cell: either text or an (exact) number. Non-numeric text
fails the `Float64` cast in `preprocess_data`. -/
inductive Cell where
  | str (s : String)
  | num (q : ℚ)
deriving DecidableEq

/-- A polars data frame: named columns in order, each a list of cells. -/
abbrev Frame := List (String × List Cell)

/-- `df.columns`. -/
def frameColumns (df : Frame) : List String := df.map (fun c => c.1)

/-- `df.drop(names)`: remove the columns whose name is listed. -/
def frameDrop (df : Frame) (names : List String) : Frame :=
  df.filter (fun c => !(names.contains c.1))

/-- `df.slice(1)`: drop the first row. -/
def frameSlice1 (df : Frame) : Frame := df.map (fun c => (c.1, c.2.drop 1))

/-- `df[name]`: the cells of the column called `name`, if present. -/
def frameGet (df : Frame) (name : String) : Option (List Cell) :=
  (df.find? (fun c => c.1 == name)).map (fun c => c.2)

/-- `df.select(names)`: the cell lists of the named columns, in the given
order (names stemming from `df.columns` are always present). -/
def frameSelect (df : Frame) (names : List String) : List (List Cell) :=
  names.filterMap (fun n => frameGet df n)

/-- Does the character list start with the given pattern? -/
def charsStartWith : List Char → List Char → Bool
  | [], _ => true
  | _ :: _, [] => false
  | p :: ps, c :: cs => p == c && charsStartWith ps cs

/-- Does the character list contain the pattern as a contiguous run? -/
def charsContain : List Char → List Char → Bool
  | pat, [] => pat.isEmpty
  | pat, c :: cs => charsStartWith pat (c :: cs) || charsContain pat cs

/-- Python `pat in s` on strings (substring containment). -/
def strContains (s pat : String) : Bool := charsContain pat.toList s.toList

/-- One decimal digit. -/
def decDigit? (c : Char) : Option ℕ := if c.isDigit then some (c.toNat - 48) else none

/-- Accumulate decimal digits; `none` on any non-digit. -/
def digitsVal : List Char → ℕ → Option ℕ
  | [], acc => some acc
  | c :: cs, acc =>
    match decDigit? c with
    | none => none
    | some d => digitsVal cs (acc * 10 + d)

/-- A non-empty all-digit run, as a natural number. -/
def parseNat (l : List Char) : Option ℕ :=
  match l with
  | [] => none
  | _ :: _ => digitsVal l 0

/-- Python `int(s)` for a plain (optionally `-`-signed) decimal string. -/
def parseInt (l : List Char) : Option ℤ :=
  match l with
  | '-' :: rest => (parseNat rest).map (fun n => -(n : ℤ))
  | _ => (parseNat l).map (fun n => (n : ℤ))

/-- Python `s.split("-")` on a character list. -/
def splitDash : List Char → List (List Char)
  | [] => [[]]
  | c :: cs =>
    let r := splitDash cs
    if c == '-' then [] :: r
    else
      match r with
      | [] => [[c]]
      | h :: t => (c :: h) :: t

/-- Python `s.rstrip("s")`: drop every trailing `s`. -/
def rstripS (l : List Char) : List Char :=
  (l.reverse.dropWhile (fun ch => ch == 's')).reverse

/-- `EMOTION_COLS` (lines 24-25): the recognized emotion identifiers, in
their fixed order. -/
def EMOTION_COLS : List String :=
  ["Negative", "Disgust", "Fear", "Sadness", "Skepticism", "Neutral", "Surprise", "Delight"]

/-- `EMOTION_TRANSLATION` (lines 28-37), with `dict.get(e, e)` fallback. -/
def EMOTION_TRANSLATION (e : String) : String :=
  if e = "Negative" then "Enojo"
  else if e = "Disgust" then "Disgusto"
  else if e = "Fear" then "Miedo"
  else if e = "Sadness" then "Atención"
  else if e = "Skepticism" then "Escepticismo"
  else if e = "Neutral" then "Neutral"
  else if e = "Surprise" then "Sorpresa"
  else if e = "Delight" then "Gusto"
  else e

/-- The failure modes of `preprocess_data`; in Python these surface as
assorted exceptions (IndexError, ValueError from `int(...)`, polars rename /
height / cast errors), all caught by `process_data`'s `except`. -/
inductive FormatError where
  | emptyTable
  | missingLabelColumn (c : String)
  | badTimeHeader (c : String)
  | nonStringLabel
  | renameMissing
  | lengthMismatch
  | coercionFailure (c : String)
  | segundoOverflow
deriving DecidableEq

/-- The tidy table produced by `preprocess_data`: the `segundos` column
(first, Int16) followed by one numeric column per retained emotion. -/
structure TidyTable where
  segundos : List ℤ
  emotions : List (String × List ℚ)
deriving DecidableEq

/-- Column names of a tidy table, in output order. -/
def TidyTable.columns (t : TidyTable) : List String :=
  "segundos" :: t.emotions.map (fun c => c.1)

/-- Effectful map over a list in `Except`, stopping at the first error
(the order Python evaluates a comprehension / polars a cast). -/
def mapE (f : α → Except ε β) : List α → Except ε (List β)
  | [] => .ok []
  | x :: xs =>
    match f x with
    | .error e => .error e
    | .ok y =>
      match mapE f xs with
      | .error e => .error e
      | .ok ys => .ok (y :: ys)

/-- `int(c.split("-")[1].rstrip("s"))` (line 298). -/
def parseIntervalHeader (c : String) : Except FormatError ℤ :=
  match (splitDash c.toList).get? 1 with
  | none => .error (.badTimeHeader c)
  | some tok =>
    match parseInt (rstripS tok) with
    | none => .error (.badTimeHeader c)
    | some n => .ok n

/-- `int(c)` (line 304). -/
def parsePlainHeader (c : String) : Except FormatError ℤ :=
  match parseInt c.toList with
  | none => .error (.badTimeHeader c)
  | some n => .ok n

/-- Line 300: plain-format placeholder columns,
`[c for c in df.columns if "UNNAMED" in str(c) and c != first_col]`.
Note the containment test is case-sensitive in the source. -/
def plainDropCols (df : Frame) (firstCol : String) : List String :=
  (frameColumns df).filter (fun c => strContains c "UNNAMED" && !(c == firstCol))

/-- Line 303: the plain-format time columns after dropping placeholders. -/
def plainTimeCols (df : Frame) (firstCol : String) : List String :=
  (frameColumns (frameDrop df (plainDropCols df firstCol))).filter (fun c => !(c == firstCol))

/-- polars `df.select(time_cols).transpose()` on the cell matrix: the j-th
output row list is the j-th entry of every selected column (`column_j` of the
transposed frame is row j of the original frame). -/
def transposeCells (mat : List (List Cell)) : List (List Cell) :=
  let height := (mat.map List.length).foldr max 0
  (List.range height).map (fun j => mat.filterMap (fun col => col.get? j))

/-- Label cells become the new column names (line 306/308); polars `rename`
rejects non-string names. -/
def cellName (c : Cell) : Except FormatError String :=
  match c with
  | .str s => .ok s
  | .num _ => .error .nonStringLabel

/-- `pl.col(e).cast(pl.Float64)` on one renamed column (line 314): numeric
cells pass through, text fails. -/
def castColumn (renamed : List (String × List Cell)) (e : String) :
    Except FormatError (String × List ℚ) :=
  match renamed.find? (fun p => p.1 == e) with
  | none => .error (.coercionFailure e)
  | some p =>
    match mapE (fun cell =>
        match cell with
        | Cell.num q => Except.ok q
        | Cell.str _ => Except.error (FormatError.coercionFailure e)) p.2 with
    | .error err => .error err
    | .ok vals => .ok (EMOTION_TRANSLATION e, vals)

/-- Lines 307-325, after the label cells are in hand: check the polars
`rename` keys (one `column_i` per label must exist), check the `segundos`
series length against the transposed height, cast `segundos` to Int16,
cast the recognized emotion columns to Float64 while renaming them to
Spanish, and select `["segundos"] + spanish_emotions`. -/
def assembleTidy (labels : List String) (tCols : List (List Cell))
    (segundos : List ℤ) : Except FormatError TidyTable :=
  if labels.length ≤ tCols.length then
    if tCols.all (fun c => c.length == segundos.length) &&
        (!tCols.isEmpty || segundos.isEmpty) then
      if segundos.all (fun s => decide (-32768 ≤ s) && decide (s ≤ 32767)) then
        match mapE (castColumn (labels.zip tCols))
            (EMOTION_COLS.filter (fun e => labels.contains e)) with
        | .error err => .error err
        | .ok emos => .ok ⟨segundos, emos⟩
      else .error .segundoOverflow
    else .error .lengthMismatch
  else .error .renameMissing

/-- Lines 306-325: read the label column, transpose the selected time
columns, and assemble the tidy table. -/
def buildTidy (df : Frame) (firstCol : String) (timeCols : List String)
    (segundos : List ℤ) : Except FormatError TidyTable :=
  match frameGet df firstCol with
  | none => .error (.missingLabelColumn firstCol)
  | some labelCells =>
    match mapE cellName labelCells with
    | .error e => .error e
    | .ok labels => assembleTidy labels (transposeCells (frameSelect df timeCols)) segundos

/-- Line 290: `any("s-" in str(c) for c in df.columns)`. -/
def hasIntervalCols (df : Frame) : Bool :=
  (frameColumns df).any (fun c => strContains c "s-")

/-- Lines 293-296 of the interval branch: drop `E AVG` / `E MAX` when
present, then `df.slice(1)`. -/
def intervalFrame (df : Frame) : Frame :=
  frameSlice1 (frameDrop df (["E AVG", "E MAX"].filter (fun c => (frameColumns df).contains c)))

/-- Line 297: the interval-format time columns. -/
def intervalTimeCols (df : Frame) : List String :=
  (frameColumns (intervalFrame df)).filter (fun c => strContains c "s-")

/-- `preprocess_data` (lines 287-325): detect the layout, drop the aggregate
or placeholder columns, parse the time headers, transpose to tidy form. -/
def preprocess_data (df : Frame) : Except FormatError TidyTable :=
  match (frameColumns df).head? with
  | none => .error .emptyTable
  | some firstCol =>
    if hasIntervalCols df then
      match mapE parseIntervalHeader (intervalTimeCols df) with
      | .error e => .error e
      | .ok segundos => buildTidy (intervalFrame df) firstCol (intervalTimeCols df) segundos
    else
      match mapE parsePlainHeader (plainTimeCols df firstCol) with
      | .error e => .error e
      | .ok segundos =>
        buildTidy (frameDrop df (plainDropCols df firstCol)) firstCol
          (plainTimeCols df firstCol) segundos

/-- `power_weights` (lines 327-334): `t = np.where(t == 0, 0.5, t)`, then
`a * np.power(t, b)`, optionally divided by the total (floats are modelled
as reals, `np.power` as `Real.rpow`). -/
noncomputable def power_weights (t : List ℝ) (a b : ℝ) (normalize : Bool) : List ℝ :=
  let t2 := t.map (fun x => if x = 0 then 0.5 else x)
  let weights := t2.map (fun x => a * x ^ b)
  if normalize then weights.map (fun w => w / weights.sum) else weights

/-- The weighted table produced by `apply_power_weighting` (line 342-346):
`segundos`, `peso_temporal`, and one `<emotion>_pw` column per emotion. -/
structure WeightedTable where
  segundos : List ℤ
  peso_temporal : List ℝ
  pw : List (String × List ℝ)

/-- Column names of a weighted table, in output order. -/
def WeightedTable.columns (w : WeightedTable) : List String :=
  "segundos" :: "peso_temporal" :: w.pw.map (fun c => c.1)

/-- `apply_power_weighting` (lines 336-346). The Python call site uses the
default `normalize=False` of `power_weights`, hence the literal `false`. -/
noncomputable def apply_power_weighting (df : TidyTable) (a b : ℝ) : WeightedTable :=
  let weights := power_weights (df.segundos.map (fun s => (s : ℝ))) a b false
  ⟨df.segundos, weights,
    df.emotions.map (fun p =>
      (p.1 ++ "_pw", List.zipWith (fun v w => (v : ℝ) * w) p.2 weights))⟩

/-- The widget state the pipeline touches: the two stored tables (lines
115-116) and the "Quitar último segundo" checkbox (line 113). -/
structure AppState where
  df_original : Option TidyTable
  df_weighted : Option WeightedTable
  remove_last : Bool

/-- `process_data` (lines 348-374), given an already-read frame.  The
second stage (lines 361-364) is fallible: `a_param.get()` / `b_param.get()`
raise `tk.TclError` when the entry text is not numeric, so the parameters
arrive as an `Except`.  Every exception is caught by the surrounding
`try/except`, which only logs, so the state reached at the raise point is
what remains. -/
noncomputable def process_data (st : AppState) (raw : Frame)
    (params : Except String (ℝ × ℝ)) : AppState :=
  match preprocess_data raw with
  | .error _ => st
  | .ok tidy =>
    match params with
    | .error _ => ⟨some tidy, st.df_weighted, st.remove_last⟩
    | .ok ab => ⟨some tidy, some (apply_power_weighting tidy ab.1 ab.2), st.remove_last⟩

/-- `neutral_cols` of `create_bar_chart` (lines 394-395): the fixed list of
weighted columns summed into the "Neutral" bar series.  `Neutral_pw` is not
in this list. -/
def neutral_cols : List String :=
  ["Enojo_pw", "Disgusto_pw", "Miedo_pw", "Atención_pw", "Escepticismo_pw", "Sorpresa_pw"]

/-- Look up a weighted column by name (empty when absent; callers guard on
presence first, matching the Python `in df.columns` checks). -/
def getPw (df : WeightedTable) (name : String) : List ℝ :=
  ((df.pw.find? (fun p => p.1 == name)).map (fun p => p.2)).getD []

/-- `pl.sum_horizontal` over the given columns (row-wise sum). -/
def sum_horizontal (cols : List (List ℝ)) : List ℝ :=
  match cols with
  | [] => []
  | c :: cs => cs.foldl (fun acc col => List.zipWith (fun x y => x + y) acc col) c

/-- Keep the entries of `col` at the row positions where the `segundos`
entry satisfies the mask (polars `df.filter`). -/
def maskBy (sec : List ℤ) (p : ℤ → Bool) (col : List α) : List α :=
  ((sec.zip col).filter (fun q => p q.1)).map (fun q => q.2)

/-- `df.filter(pl.col("segundos") < max_sec)` applied to a whole table. -/
def filterBySec (w : WeightedTable) (p : ℤ → Bool) : WeightedTable :=
  ⟨w.segundos.filter p, maskBy w.segundos p w.peso_temporal,
    w.pw.map (fun c => (c.1, maskBy w.segundos p c.2))⟩

/-- Lines 383-386 of `create_bar_chart`: when the "drop last second" flag is
set, keep only rows with `segundos` strictly below the maximum (an empty
table stays empty, as comparing against a null maximum keeps nothing). -/
def bar_chart_df (df : WeightedTable) (removeLast : Bool) : WeightedTable :=
  if removeLast then
    match df.segundos.max? with
    | none => filterBySec df (fun _ => false)
    | some m => filterBySec df (fun s => decide (s < m))
  else df

/-- Lines 390-391: the "Positivo" series is `Gusto_pw` when present, else
zeros. -/
def positivo_series (df : WeightedTable) : List ℝ :=
  if (df.pw.map (fun c => c.1)).contains "Gusto_pw" then getPw df "Gusto_pw"
  else List.replicate df.segundos.length 0

/-- Lines 393-401: the "Neutral" series is the row-wise sum of the
`neutral_cols` that are present, else zeros. -/
def neutral_series (df : WeightedTable) : List ℝ :=
  let available := neutral_cols.filter (fun c => (df.pw.map (fun p => p.1)).contains c)
  if available.isEmpty then List.replicate df.segundos.length 0
  else sum_horizontal (available.map (fun c => getPw df c))

/-- Modelled from the spec (section 4.2, "Derived aggregate"): the neutral
series as the spec words it, the row-wise sum of ALL weighted emotion
columns other than the single positive column `Gusto_pw`.  Used only to
compare against the implementation `neutral_series`. -/
def spec_neutral_series (df : WeightedTable) : List ℝ :=
  sum_horizontal ((df.pw.filter (fun p => !(p.1 == "Gusto_pw"))).map (fun p => p.2))

deriving instance DecidableEq for Except

/-- Interval-format frame of the end-to-end scenario: label column
`Emotion`, time columns `s-1s` / `s-2s`, metadata row 0 (dropped by
`slice(1)`), then the rows `Negative = [10, 5]` and `Delight = [20, 30]`. -/
def c5raw : Frame :=
  [("Emotion", [Cell.str "E AVG-placeholder", Cell.str "Negative", Cell.str "Delight"]),
   ("s-1s", [Cell.str "x", Cell.num 10, Cell.num 20]),
   ("s-2s", [Cell.str "x", Cell.num 5, Cell.num 30])]

/-- The tidy table `preprocess_data` actually produces from `c5raw`. -/
def c5tidy : TidyTable := ⟨[1, 2], [("Enojo", [10, 5]), ("Gusto", [20, 30])]⟩

/-- Plain-format frame whose label column lists `Delight` before
`Negative` (reverse of the fixed `EMOTION_COLS` order). -/
def c2raw : Frame :=
  [("Emotions", [Cell.str "Delight", Cell.str "Negative"]),
   ("1", [Cell.num 3, Cell.num 4]),
   ("2", [Cell.num 5, Cell.num 6])]

/-- Plain-format frame with a mixed-case `Unnamed: 2` placeholder column. -/
def c3raw : Frame :=
  [("Label", [Cell.str "Negative"]),
   ("1", [Cell.num 5]),
   ("Unnamed: 2", [Cell.num 9])]

/-- `c3raw` with the placeholder column already removed by hand. -/
def c3rawDropped : Frame :=
  [("Label", [Cell.str "Negative"]),
   ("1", [Cell.num 5])]

/-- Plain-format frame with an upper-case `UNNAMED: 2` placeholder column. -/
def c3wit : Frame :=
  [("Label", [Cell.str "Negative"]),
   ("1", [Cell.num 5]),
   ("UNNAMED: 2", [Cell.num 9])]

/-- Malformed frame: only the label column, so no time columns remain. -/
def c6noTime : Frame := [("Label", [Cell.str "Negative"])]

/-- Malformed frame: the non-label header `abc` is not an integer. -/
def c6badHeader : Frame := [("Label", [Cell.str "Negative"]), ("abc", [Cell.num 1])]

/-- A small healthy plain-format frame. -/
def c10raw : Frame := [("Label", [Cell.str "Negative"]), ("1", [Cell.num 5])]

/-- The tidy table produced from `c10raw`. -/
def c10tidy : TidyTable := ⟨[1], [("Enojo", [5])]⟩

/-- A weighted table standing for the result of an earlier, different
`process_data` run. -/
noncomputable def c10stale : WeightedTable := ⟨[9], [2], [("Gusto_pw", [3])]⟩

/-- A weighted table that contains a `Neutral_pw` column. -/
noncomputable def c1table : WeightedTable :=
  ⟨[1], [1], [("Neutral_pw", [7]), ("Gusto_pw", [3])]⟩

theorem castColumn_fst (renamed : List (String × List Cell)) (e : String)
    (p : String × List ℚ) (h : castColumn renamed e = .ok p) :
    p.1 = EMOTION_TRANSLATION e := by
  unfold castColumn at h
  split at h
  · exact Except.noConfusion h
  · split at h
    · exact Except.noConfusion h
    · injection h with h1
      subst h1
      rfl

theorem mapE_castColumn_fst (renamed : List (String × List Cell)) :
    ∀ (av : List String) (emos : List (String × List ℚ)),
      mapE (castColumn renamed) av = .ok emos →
      emos.map (fun p => p.1) = av.map EMOTION_TRANSLATION
  | [], emos, h => by
    injection h with h1
    rw [← h1]
    rfl
  | x :: xs, emos, h => by
    unfold mapE at h
    split at h
    · exact Except.noConfusion h
    · rename_i p hp
      split at h
      · exact Except.noConfusion h
      · rename_i ps hps
        injection h with h1
        subst h1
        simp only [List.map_cons]
        rw [castColumn_fst renamed x p hp, mapE_castColumn_fst renamed xs ps hps]

theorem assembleTidy_ok_segundos (labels : List String) (tCols : List (List Cell))
    (sg : List ℤ) (t : TidyTable) (h : assembleTidy labels tCols sg = .ok t) :
    t.segundos = sg := by
  unfold assembleTidy at h
  split at h
  · split at h
    · split at h
      · split at h
        · exact Except.noConfusion h
        · injection h with h1
          subst h1
          rfl
      · exact Except.noConfusion h
    · exact Except.noConfusion h
  · exact Except.noConfusion h

theorem assembleTidy_ok_emotions (labels : List String) (tCols : List (List Cell))
    (sg : List ℤ) (t : TidyTable) (h : assembleTidy labels tCols sg = .ok t) :
    ∃ sub : List String, sub.Sublist EMOTION_COLS ∧
      t.emotions.map (fun p => p.1) = sub.map EMOTION_TRANSLATION := by
  unfold assembleTidy at h
  split at h
  · split at h
    · split at h
      · split at h
        · exact Except.noConfusion h
        · rename_i emos hm
          injection h with h1
          subst h1
          exact ⟨EMOTION_COLS.filter (fun e => labels.contains e),
            List.filter_sublist _, mapE_castColumn_fst _ _ _ hm⟩
      · exact Except.noConfusion h
    · exact Except.noConfusion h
  · exact Except.noConfusion h

theorem buildTidy_ok_segundos (df : Frame) (fc : String) (tc : List String)
    (sg : List ℤ) (t : TidyTable) (h : buildTidy df fc tc sg = .ok t) :
    t.segundos = sg := by
  unfold buildTidy at h
  split at h
  · exact Except.noConfusion h
  · split at h
    · exact Except.noConfusion h
    · exact assembleTidy_ok_segundos _ _ _ _ h

theorem buildTidy_ok_emotions (df : Frame) (fc : String) (tc : List String)
    (sg : List ℤ) (t : TidyTable) (h : buildTidy df fc tc sg = .ok t) :
    ∃ sub : List String, sub.Sublist EMOTION_COLS ∧
      t.emotions.map (fun p => p.1) = sub.map EMOTION_TRANSLATION := by
  unfold buildTidy at h
  split at h
  · exact Except.noConfusion h
  · split at h
    · exact Except.noConfusion h
    · exact assembleTidy_ok_emotions _ _ _ _ h

theorem preprocess_ok_emotions (raw : Frame) (t : TidyTable)
    (h : preprocess_data raw = .ok t) :
    ∃ sub : List String, sub.Sublist EMOTION_COLS ∧
      t.emotions.map (fun p => p.1) = sub.map EMOTION_TRANSLATION := by
  unfold preprocess_data at h
  split at h
  · exact Except.noConfusion h
  · split at h
    · split at h
      · exact Except.noConfusion h
      · exact buildTidy_ok_emotions _ _ _ _ _ h
    · split at h
      · exact Except.noConfusion h
      · exact buildTidy_ok_emotions _ _ _ _ _ h

/-- C2 counterexample: a plain-format frame whose label column reads
`Delight` before `Negative` yields tidy columns in the fixed
`EMOTION_COLS` order (`Enojo` before `Gusto`), not in the encountered
(label-row) order. -/
theorem C2_counterexample :
    preprocess_data c2raw = .ok ⟨[1, 2], [("Enojo", [4, 6]), ("Gusto", [3, 5])]⟩ ∧
    TidyTable.columns ⟨[1, 2], [("Enojo", [4, 6]), ("Gusto", [3, 5])]⟩ ≠
      "segundos" :: ["Delight", "Negative"].map EMOTION_TRANSLATION := by
  constructor
  · decide
  · decide

/-- C2 (amended): in every successful `preprocess_data` run the tidy
column order is `segundos` first, then the translations of a sublist of
the fixed `EMOTION_COLS` enumeration — the predefined order, not the
order the labels were encountered in. -/
theorem C2_theorem (raw : Frame) (t : TidyTable) (h : preprocess_data raw = .ok t) :
    ∃ sub : List String, sub.Sublist EMOTION_COLS ∧
      t.columns = "segundos" :: sub.map EMOTION_TRANSLATION := by
  obtain ⟨sub, hsub, hmap⟩ := preprocess_ok_emotions raw t h
  exact ⟨sub, hsub, by rw [TidyTable.columns, hmap]⟩

/-- C2 witness: the amended statement instantiated on `c2raw`. -/
theorem C2_witness :
    ∃ sub : List String, sub.Sublist EMOTION_COLS ∧
      TidyTable.columns ⟨[1, 2], [("Enojo", [4, 6]), ("Gusto", [3, 5])]⟩ =
        "segundos" :: sub.map EMOTION_TRANSLATION :=
  C2_theorem c2raw ⟨[1, 2], [("Enojo", [4, 6]), ("Gusto", [3, 5])]⟩ (by decide)

/-- C4 counterexample: one emotion column in, and the weighted output has
3 columns (not `2 + 2*E = 4`) with the original `Enojo` column absent. -/
theorem C4_counterexample :
    (apply_power_weighting ⟨[1], [("Enojo", [2])]⟩ 1 0).columns =
      ["segundos", "peso_temporal", "Enojo_pw"] ∧
    "Enojo" ∉ (apply_power_weighting ⟨[1], [("Enojo", [2])]⟩ 1 0).columns ∧
    (["segundos", "peso_temporal", "Enojo_pw"] : List String).length ≠ 2 + 2 * 1 := by
  refine ⟨rfl, ?_, by decide⟩
  intro hmem
  revert hmem
  decide

/-- C4 (amended): for every tidy table the weighted output has exactly the
columns `segundos`, `peso_temporal` and one `<emotion>_pw` per emotion —
`2 + E` columns; the original emotion columns are not re-emitted. -/
theorem C4_theorem (df : TidyTable) (a b : ℝ) :
    (apply_power_weighting df a b).columns =
      "segundos" :: "peso_temporal" :: df.emotions.map (fun p => p.1 ++ "_pw") ∧
    (apply_power_weighting df a b).columns.length = 2 + df.emotions.length := by
  constructor
  · simp [apply_power_weighting, WeightedTable.columns]
  · simp [apply_power_weighting, WeightedTable.columns]
    omega

/-- C6: whenever normalization fails with a `FormatError`, `process_data`
leaves the stored tables untouched; in particular the frame with no time
columns left and the frame with a non-integer time header both fail. -/
theorem C6_theorem :
    (∀ (st : AppState) (raw : Frame) (params : Except String (ℝ × ℝ)) (e : FormatError),
        preprocess_data raw = .error e → process_data st raw params = st) ∧
    preprocess_data c6noTime = .error FormatError.renameMissing ∧
    preprocess_data c6badHeader = .error (FormatError.badTimeHeader "abc") := by
  refine ⟨?_, by decide, by decide⟩
  intro st raw params e h
  simp [process_data, h]

/-- C6 witness: processing the malformed no-time-column frame leaves a
concrete state unchanged. -/
theorem C6_witness :
    process_data ⟨none, none, false⟩ c6noTime (.ok (1, 1)) = ⟨none, none, false⟩ :=
  C6_theorem.1 ⟨none, none, false⟩ c6noTime (.ok (1, 1)) FormatError.renameMissing (by decide)

/-- C10: when normalization succeeds but the weighting stage raises (for
example `a_param.get()` fails with `tk.TclError`), the stored tidy table is
replaced while the stored weighted table keeps its previous value. -/
theorem C10_theorem (o : Option TidyTable) (w : Option WeightedTable) (rl : Bool)
    (raw : Frame) (tidy : TidyTable) (msg : String)
    (h : preprocess_data raw = .ok tidy) :
    process_data ⟨o, w, rl⟩ raw (.error msg) = ⟨some tidy, w, rl⟩ := by
  simp [process_data, h]

/-- C10 witness: a run over `c10raw` whose weighting stage raises leaves
the stale weighted table of an earlier input in place next to the fresh
tidy table. -/
theorem C10_witness :
    preprocess_data c10raw = .ok c10tidy ∧
    process_data ⟨none, some c10stale, false⟩ c10raw (.error "TclError") =
      ⟨some c10tidy, some c10stale, false⟩ :=
  ⟨by decide, C10_theorem none (some c10stale) false c10raw c10tidy "TclError" (by decide)⟩

theorem frameColumns_frameDrop (df : Frame) (names : List String) :
    frameColumns (frameDrop df names) =
      (frameColumns df).filter (fun c => !(names.contains c)) := by
  induction df with
  | nil => rfl
  | cons hd tl ih =>
    by_cases hp : hd.1 ∈ names <;>
      simp [frameColumns, frameDrop, List.filter_cons, hp] at ih ⊢ <;>
      simpa using ih

theorem mem_plainTimeCols (df : Frame) (firstCol c : String) :
    c ∈ plainTimeCols df firstCol ↔
      c ∈ frameColumns df ∧ c ≠ firstCol ∧ strContains c "UNNAMED" = false := by
  unfold plainTimeCols
  rw [frameColumns_frameDrop]
  simp [plainDropCols, List.mem_filter]
  tauto

theorem preprocess_plain_segundos (raw : Frame) (firstCol : String) (t : TidyTable)
    (hhead : (frameColumns raw).head? = some firstCol)
    (hint : hasIntervalCols raw = false)
    (h : preprocess_data raw = .ok t) :
    mapE parsePlainHeader (plainTimeCols raw firstCol) = .ok t.segundos := by
  unfold preprocess_data at h
  rw [hhead, hint] at h
  simp only [Bool.false_eq_true, if_false] at h
  split at h
  · exact Except.noConfusion h
  · rename_i sg hm
    rw [buildTidy_ok_segundos _ _ _ _ _ h]
    exact hm

/-- C3 (amended): in the plain format the dropped placeholder columns are
exactly the non-label columns containing the case-SENSITIVE substring
`UNNAMED` (a header merely containing `unnamed` or `Unnamed` is kept), and
on success the tidy `segundos` are the integer parses of exactly the
retained non-label headers. -/
theorem C3_theorem :
    (∀ (df : Frame) (firstCol c : String),
        c ∈ plainTimeCols df firstCol ↔
          c ∈ frameColumns df ∧ c ≠ firstCol ∧ strContains c "UNNAMED" = false) ∧
    (∀ (raw : Frame) (firstCol : String) (t : TidyTable),
        (frameColumns raw).head? = some firstCol →
        hasIntervalCols raw = false →
        preprocess_data raw = .ok t →
        mapE parsePlainHeader (plainTimeCols raw firstCol) = .ok t.segundos) :=
  ⟨mem_plainTimeCols, preprocess_plain_segundos⟩

/-- C3 witness: on a frame with an upper-case `UNNAMED: 2` placeholder the
placeholder is dropped and the remaining header parses to the second 1. -/
theorem C3_witness :
    (frameColumns c3wit).head? = some "Label" ∧
    hasIntervalCols c3wit = false ∧
    preprocess_data c3wit = .ok ⟨[1], [("Enojo", [5])]⟩ ∧
    mapE parsePlainHeader (plainTimeCols c3wit "Label") = .ok [1] :=
  ⟨by decide, by decide, by decide,
    C3_theorem.2 c3wit "Label" ⟨[1], [("Enojo", [5])]⟩ (by decide) (by decide) (by decide)⟩

/-- C3 counterexample: the mixed-case header `Unnamed: 2` is NOT dropped —
it is treated as a time header, whose integer parse fails, so the run
errors instead of succeeding as it does once the column is removed. -/
theorem C3_counterexample :
    preprocess_data c3raw = .error (FormatError.badTimeHeader "Unnamed: 2") ∧
    preprocess_data c3rawDropped = .ok ⟨[1], [("Enojo", [5])]⟩ ∧
    preprocess_data c3raw ≠ preprocess_data c3rawDropped := by
  refine ⟨by decide, by decide, by decide⟩

/-- A weighted table with seconds 1 and 2, for the C9 witness. -/
noncomputable def c9table : WeightedTable := ⟨[1, 2], [1, 1], []⟩

theorem mem_le_of_max? (l : List ℤ) (m : ℤ) (h : l.max? = some m) :
    ∀ x ∈ l, x ≤ m :=
  (List.max?_le_iff (fun _ _ _ => max_le_iff) h).1 (le_refl m)

/-- C9: `process_data` stores the same weighted table whatever the
"drop last second" flag is; `apply_power_weighting` keeps every `segundos`
row; and the bar-chart collaborator, with the flag set, keeps exactly the
rows whose `segundos` differs from the maximum (with the flag clear it
passes the table through untouched). -/
theorem C9_theorem :
    (∀ (o : Option TidyTable) (w : Option WeightedTable) (b₁ b₂ : Bool) (raw : Frame)
        (params : Except String (ℝ × ℝ)),
        (process_data ⟨o, w, b₁⟩ raw params).df_weighted =
          (process_data ⟨o, w, b₂⟩ raw params).df_weighted) ∧
    (∀ (df : TidyTable) (a b : ℝ), (apply_power_weighting df a b).segundos = df.segundos) ∧
    (∀ w : WeightedTable, bar_chart_df w false = w) ∧
    (∀ (w : WeightedTable) (m : ℤ), w.segundos.max? = some m →
        (bar_chart_df w true).segundos = w.segundos.filter (fun s => !(s == m))) := by
  refine ⟨?_, fun df a b => rfl, fun w => rfl, ?_⟩
  · intro o w b₁ b₂ raw params
    cases hp : preprocess_data raw <;> cases params <;> simp [process_data, hp]
  · intro w m h
    simp only [bar_chart_df, if_true, h, filterBySec]
    refine List.filter_congr ?_
    intro x hx
    have hxle : x ≤ m := mem_le_of_max? _ _ h x hx
    by_cases hxe : x = m
    · subst hxe
      simp
    · have hlt : x < m := lt_of_le_of_ne hxle hxe
      simp [hlt, hxe]

/-- C9 witness: the drop-last-second filter on a concrete table keeps
exactly the rows below the maximum second. -/
theorem C9_witness :
    c9table.segundos.max? = some 2 ∧
    (bar_chart_df c9table true).segundos = c9table.segundos.filter (fun s => !(s == 2)) :=
  ⟨by decide, C9_theorem.2.2.2 c9table 2 (by decide)⟩

theorem list_sum_map_div (l : List ℝ) (s : ℝ) :
    (l.map (fun x => x / s)).sum = l.sum / s := by
  induction l with
  | nil => simp
  | cons x xs ih => simp [ih, add_div]

/-- C8: with normalization requested, `power_weights` divides each weight
by the total (so the vector sums to 1 whenever the total is nonzero), and
the `apply_power_weighting` path always emits the raw, unnormalized
weights as `peso_temporal` (`normalize` defaults to off and the call site
does not pass it). -/
theorem C8_theorem (t : List ℝ) (a b : ℝ)
    (h : (power_weights t a b false).sum ≠ 0) :
    power_weights t a b true =
      (power_weights t a b false).map (fun w => w / (power_weights t a b false).sum) ∧
    (power_weights t a b true).sum = 1 ∧
    ∀ df : TidyTable, (apply_power_weighting df a b).peso_temporal =
      power_weights (df.segundos.map (fun s => (s : ℝ))) a b false := by
  refine ⟨rfl, ?_, fun df => rfl⟩
  show ((power_weights t a b false).map
    (fun w => w / (power_weights t a b false).sum)).sum = 1
  rw [list_sum_map_div]
  exact div_self h

/-- C8 witness: on the one-row input `[1]` with `a = 1`, `b = 0` the raw
weight total is 1 (nonzero) and the normalized vector sums to 1. -/
theorem C8_witness :
    (power_weights [(1 : ℝ)] 1 0 false).sum ≠ 0 ∧
    (power_weights [(1 : ℝ)] 1 0 true).sum = 1 := by
  have h : (power_weights [(1 : ℝ)] 1 0 false).sum ≠ 0 := by
    norm_num [power_weights]
  exact ⟨h, (C8_theorem [(1 : ℝ)] 1 0 h).2.1⟩

theorem ten_rpow_pow250 : ((10 : ℝ) ^ (-0.228 : ℝ)) ^ (250 : ℕ) = ((10 : ℝ) ^ (57 : ℕ))⁻¹ := by
  have h10 : (0 : ℝ) ≤ 10 := by norm_num
  rw [← Real.rpow_natCast ((10 : ℝ) ^ (-0.228 : ℝ)) 250, ← Real.rpow_mul h10]
  rw [show ((-0.228 : ℝ) * (250 : ℕ)) = -(57 : ℝ) by norm_num]
  rw [Real.rpow_neg h10, show ((57 : ℝ)) = ((57 : ℕ) : ℝ) by norm_num, Real.rpow_natCast]

theorem ten_rpow_lt : (10 : ℝ) ^ (-0.228 : ℝ) < 0.592 := by
  have key : ((10 : ℝ) ^ (-0.228 : ℝ)) ^ (250 : ℕ) < (0.592 : ℝ) ^ (250 : ℕ) := by
    rw [ten_rpow_pow250]
    norm_num
  exact lt_of_pow_lt_pow_left₀ 250 (by norm_num) key

theorem ten_rpow_gt : (0.591 : ℝ) < (10 : ℝ) ^ (-0.228 : ℝ) := by
  have h0 : (0 : ℝ) ≤ (10 : ℝ) ^ (-0.228 : ℝ) := Real.rpow_nonneg (by norm_num) _
  have key : (0.591 : ℝ) ^ (250 : ℕ) < ((10 : ℝ) ^ (-0.228 : ℝ)) ^ (250 : ℕ) := by
    rw [ten_rpow_pow250]
    norm_num
  exact lt_of_pow_lt_pow_left₀ 250 h0 key

/-- C7 (amended): `weight([0])` equals `weight([0.5])` exactly for all
parameters; with `a = 4.5167`, `b = -0.228` the weight at `t = 1` is
exactly 4.5167, and the weight at `t = 10` is `4.5167 * 10^(-0.228)`,
which is approximately 2.672 (within 0.004), not 2.714. -/
theorem C7_theorem :
    (∀ (a b : ℝ) (normalize : Bool),
        power_weights [0] a b normalize = power_weights [0.5] a b normalize) ∧
    power_weights [1] 4.5167 (-0.228) false = [4.5167] ∧
    power_weights [10] 4.5167 (-0.228) false = [4.5167 * (10 : ℝ) ^ (-0.228 : ℝ)] ∧
    |4.5167 * (10 : ℝ) ^ (-0.228 : ℝ) - 2.672| < 1 / 250 := by
  refine ⟨?_, ?_, ?_, ?_⟩
  · intro a b n
    norm_num [power_weights]
  · norm_num [power_weights]
  · norm_num [power_weights]
  · have h1 := ten_rpow_gt
    have h2 := ten_rpow_lt
    rw [abs_lt]
    constructor <;> nlinarith

/-- C7 counterexample: the weight at `t = 10` differs from the claimed
2.714 by more than 1/30, far beyond floating tolerance. -/
theorem C7_counterexample :
    power_weights [10] 4.5167 (-0.228) false = [4.5167 * (10 : ℝ) ^ (-0.228 : ℝ)] ∧
    1 / 30 < |4.5167 * (10 : ℝ) ^ (-0.228 : ℝ) - 2.714| := by
  constructor
  · norm_num [power_weights]
  · have h2 := ten_rpow_lt
    have hneg : 4.5167 * (10 : ℝ) ^ (-0.228 : ℝ) - 2.714 < 0 := by nlinarith
    rw [abs_of_neg hneg]
    nlinarith

/-- C5 counterexample: on the scenario frame the tidy output carries the
translated names `Enojo` / `Gusto` and the series `[10, 5]` / `[20, 30]`
(each emotion row becomes a column), not `Negative = [10, 20]`,
`Delight = [5, 30]` as claimed. -/
theorem C5_counterexample :
    preprocess_data c5raw = .ok c5tidy ∧
    c5tidy ≠ ⟨[1, 2], [("Negative", [10, 20]), ("Delight", [5, 30])]⟩ := by
  constructor
  · decide
  · decide

/-- C5 (amended): the scenario frame normalizes to `segundos = [1, 2]`,
`Enojo = [10, 5]`, `Gusto = [20, 30]`, and weighting with `a = 1`, `b = 0`
yields `peso_temporal = [1, 1]`, `Enojo_pw = [10, 5]`,
`Gusto_pw = [20, 30]`. -/
theorem C5_theorem :
    preprocess_data c5raw = .ok c5tidy ∧
    apply_power_weighting c5tidy 1 0 =
      ⟨[1, 2], [1, 1], [("Enojo_pw", [10, 5]), ("Gusto_pw", [20, 30])]⟩ := by
  constructor
  · decide
  · simp only [apply_power_weighting, power_weights, c5tidy]
    norm_num [Real.rpow_zero]
    exact ⟨rfl, rfl⟩

/-- C1 counterexample: a weighted table holding only `Neutral_pw = [7]`
and `Gusto_pw = [3]` gets the neutral series `[0]` from the code, while
the claimed row-wise sum of all non-positive weighted columns is `[7]`. -/
theorem C1_counterexample :
    neutral_series c1table = [0] ∧
    spec_neutral_series c1table = [7] ∧
    neutral_series c1table ≠ spec_neutral_series c1table := by
  have hA : neutral_series c1table = [0] := rfl
  have hB : spec_neutral_series c1table = [7] := rfl
  refine ⟨hA, hB, ?_⟩
  rw [hA, hB]
  simp only [ne_eq, List.cons.injEq, and_true]
  norm_num

/-- C1 (amended): on a weighted table carrying all eight canonical
weighted columns, the neutral series is the row-wise sum of the weighted
columns other than `Gusto_pw` AND `Neutral_pw`; the `Neutral_pw` column
does not contribute. -/
theorem C1_theorem (sec : List ℤ) (pt v1 v2 v3 v4 v5 v6 v7 v8 : List ℝ) :
    neutral_series ⟨sec, pt,
      [("Enojo_pw", v1), ("Disgusto_pw", v2), ("Miedo_pw", v3), ("Atención_pw", v4),
       ("Escepticismo_pw", v5), ("Neutral_pw", v6), ("Sorpresa_pw", v7), ("Gusto_pw", v8)]⟩ =
      sum_horizontal
        (((([("Enojo_pw", v1), ("Disgusto_pw", v2), ("Miedo_pw", v3), ("Atención_pw", v4),
             ("Escepticismo_pw", v5), ("Neutral_pw", v6), ("Sorpresa_pw", v7),
             ("Gusto_pw", v8)] : List (String × List ℝ)).filter
            (fun p => !(p.1 == "Gusto_pw") && !(p.1 == "Neutral_pw")))).map (fun p => p.2)) := by
  rfl
